import Mathlib

/-!
Shallow embedding of the `noaa_coops` station module
(`src/noaa_coops/station.py`) together with theorems that settle the
frozen claims about it.  Pure Python functions become Lean functions;
the HTTP transport is an oracle argument (`Nat → ApiResp`) giving the
decoded response of the i-th issued request; pandas DataFrames become
association-list rows; Python exceptions become `Except` errors.
-/

namespace NoaaCoops

/-! ### Proleptic Gregorian calendar, as used by Python `datetime` -/

/-- Leap-year test of the proleptic Gregorian calendar (`calendar.isleap`). -/
def isLeap (y : Nat) : Bool :=
  y % 4 == 0 && (y % 100 != 0 || y % 400 == 0)

/-- Number of days in month `m` of year `y` (Python `calendar.monthrange`). -/
def daysInMonth (y m : Nat) : Nat :=
  if m == 2 then (if isLeap y then 29 else 28)
  else if m == 4 || m == 6 || m == 9 || m == 11 then 30
  else 31

/-- Days in all years strictly before year `y` (CPython `_days_before_year`). -/
def daysBeforeYear (y : Nat) : Nat :=
  let yy := y - 1
  365 * yy + yy / 4 - yy / 100 + yy / 400

/-- Days in year `y` strictly before month `m` (CPython `_days_before_month`). -/
def daysBeforeMonth (y m : Nat) : Nat :=
  (List.range m).foldl (fun acc i => if 1 ≤ i then acc + daysInMonth y i else acc) 0

/-- Python `datetime.toordinal`: day number with 0001-01-01 mapped to 1. -/
def toOrdinal (y m d : Nat) : Nat :=
  daysBeforeYear y + daysBeforeMonth y m + d

/-- Inverse of `toOrdinal` (CPython `_ord2ymd`): 400/100/4/1-year cycles and a
month walk. -/
def fromOrdinal (ord : Nat) : Nat × Nat × Nat :=
  let n := ord - 1
  let n400 := n / 146097
  let r400 := n % 146097
  let n100 := r400 / 36524
  let r100 := r400 % 36524
  let n4 := r100 / 1461
  let r4 := r100 % 1461
  let n1 := r4 / 365
  let nd := r4 % 365
  if n100 == 4 || n1 == 4 then
    (n400 * 400 + n100 * 100 + n4 * 4 + n1, 12, 31)
  else
    let y := n400 * 400 + n100 * 100 + n4 * 4 + n1 + 1
    let step := fun (acc : Nat × Nat) (_ : Nat) =>
      let dim := daysInMonth y acc.1
      if acc.2 < dim then acc else (acc.1 + 1, acc.2 - dim)
    let md := (List.range 12).foldl step (1, nd)
    (y, md.1, md.2 + 1)

/-- A parsed Python `datetime` value (year, month, day, hour, minute). -/
structure PyDateTime where
  y : Nat
  m : Nat
  d : Nat
  h : Nat
  mi : Nat
deriving Repr, DecidableEq

/-- Minutes since the epoch of `toOrdinal` (day 1 starts at minute 1440). -/
def dtToMin (t : PyDateTime) : Nat :=
  1440 * toOrdinal t.y t.m t.d + 60 * t.h + t.mi

/-- Two-digit zero-padded decimal rendering. -/
def pad2 (n : Nat) : String :=
  if n < 10 then "0" ++ toString n else toString n

/-- Four-digit zero-padded decimal rendering. -/
def pad4 (n : Nat) : String :=
  if n < 10 then "000" ++ toString n
  else if n < 100 then "00" ++ toString n
  else if n < 1000 then "0" ++ toString n
  else toString n

/-- `strftime("%Y%m%d")` applied to a minute timestamp. -/
def fmtYmd (t : Nat) : String :=
  let ymd := fromOrdinal (t / 1440)
  pad4 ymd.1 ++ pad2 ymd.2.1 ++ pad2 ymd.2.2

/-- `strftime("%Y%m%d %H:%M")` applied to a minute timestamp. -/
def fmtYmdHM (t : Nat) : String :=
  fmtYmd t ++ " " ++ pad2 (t % 1440 / 60) ++ ":" ++ pad2 (t % 60)

/-! ### `datetime.strptime` for the four formats tried by
`_parse_known_date_formats` (station.py:454-478).

CPython's `_strptime` compiles each directive to a regular expression:
`%Y` is exactly four digits, `%m` is `1[0-2]|0[1-9]|[1-9]`, `%d` is
`3[01]|[12]\d|0[1-9]|[1-9]`, `%H` is `2[0-3]|[0-1]\d|\d`, `%M` is
`[0-5]\d|\d`, a whitespace run in the format matches one or more
whitespace characters, and other characters match literally.  The match
is anchored at the start and any unconverted trailing data raises
`ValueError`; we realise the same semantics as an ordered-choice matcher
with backtracking that must consume the whole string.  The resulting
field values are then validated by the `datetime` constructor (year at
least 1, day within the month). -/

/-- Directive alphabet of the four formats used by the module. -/
inductive Tok where
  | year4
  | mon
  | day
  | hour
  | minute
  | lit (c : Char)
  | ws
deriving Repr, DecidableEq

/-- Decimal value of an ASCII digit, if `c` is one. -/
def digitVal (c : Char) : Option Nat :=
  if '0' ≤ c ∧ c ≤ '9' then some (c.toNat - 48) else none

/-- Candidate consumptions of one directive, in the preference order of the
CPython regular expression alternation (value consumed, rest of input). -/
def candTok : Tok → List Char → List (Nat × List Char)
  | .year4, c1 :: c2 :: c3 :: c4 :: rest =>
    match digitVal c1, digitVal c2, digitVal c3, digitVal c4 with
    | some a, some b, some c, some d => [(a * 1000 + b * 100 + c * 10 + d, rest)]
    | _, _, _, _ => []
  | .year4, _ => []
  | .mon, cs =>
    (match cs with
     | '1' :: c2 :: rest =>
       match digitVal c2 with
       | some v => if v ≤ 2 then [(10 + v, rest)] else []
       | none => []
     | _ => []) ++
    (match cs with
     | '0' :: c2 :: rest =>
       match digitVal c2 with
       | some v => if 1 ≤ v then [(v, rest)] else []
       | none => []
     | _ => []) ++
    (match cs with
     | c1 :: rest =>
       match digitVal c1 with
       | some v => if 1 ≤ v then [(v, rest)] else []
       | none => []
     | _ => [])
  | .day, cs =>
    (match cs with
     | '3' :: c2 :: rest =>
       match digitVal c2 with
       | some v => if v ≤ 1 then [(30 + v, rest)] else []
       | none => []
     | _ => []) ++
    (match cs with
     | c1 :: c2 :: rest =>
       match digitVal c1, digitVal c2 with
       | some a, some b => if 1 ≤ a ∧ a ≤ 2 then [(10 * a + b, rest)] else []
       | _, _ => []
     | _ => []) ++
    (match cs with
     | '0' :: c2 :: rest =>
       match digitVal c2 with
       | some v => if 1 ≤ v then [(v, rest)] else []
       | none => []
     | _ => []) ++
    (match cs with
     | c1 :: rest =>
       match digitVal c1 with
       | some v => if 1 ≤ v then [(v, rest)] else []
       | none => []
     | _ => [])
  | .hour, cs =>
    (match cs with
     | '2' :: c2 :: rest =>
       match digitVal c2 with
       | some v => if v ≤ 3 then [(20 + v, rest)] else []
       | none => []
     | _ => []) ++
    (match cs with
     | c1 :: c2 :: rest =>
       match digitVal c1, digitVal c2 with
       | some a, some b => if a ≤ 1 then [(10 * a + b, rest)] else []
       | _, _ => []
     | _ => []) ++
    (match cs with
     | c1 :: rest =>
       match digitVal c1 with
       | some v => [(v, rest)]
       | none => []
     | _ => [])
  | .minute, cs =>
    (match cs with
     | c1 :: c2 :: rest =>
       match digitVal c1, digitVal c2 with
       | some a, some b => if a ≤ 5 then [(10 * a + b, rest)] else []
       | _, _ => []
     | _ => []) ++
    (match cs with
     | c1 :: rest =>
       match digitVal c1 with
       | some v => [(v, rest)]
       | none => []
     | _ => [])
  | .lit c, c1 :: rest => if c1 == c then [(0, rest)] else []
  | .lit _, [] => []
  | .ws, cs =>
    let pre := cs.takeWhile (fun c => c == ' ' || c == '\t' || c == '\n' || c == '\r')
    if pre.isEmpty then [] else [(0, cs.drop pre.length)]

/-- Accumulated directive values; missing directives keep the `strptime`
defaults (year 1900, month 1, day 1, midnight). -/
structure DTParts where
  y : Nat := 1900
  m : Nat := 1
  d : Nat := 1
  h : Nat := 0
  mi : Nat := 0
deriving Repr, DecidableEq

/-- Record the value consumed by one directive. -/
def setTok (t : Tok) (v : Nat) (p : DTParts) : DTParts :=
  match t with
  | .year4 => { p with y := v }
  | .mon => { p with m := v }
  | .day => { p with d := v }
  | .hour => { p with h := v }
  | .minute => { p with mi := v }
  | .lit _ => p
  | .ws => p

/-- All full-string matches of a directive list, in regex backtracking
order; the head (if any) is the parse `re.match` would produce. -/
def matchToks : List Tok → DTParts → List Char → List DTParts
  | [], p, s => if s.isEmpty then [p] else []
  | t :: ts, p, s => (candTok t s).flatMap fun vc => matchToks ts (setTok t vc.1 p) vc.2

/-- The four accepted formats, in the order tried by the source. -/
inductive Fmt where
  | ymd
  | ymdHM
  | mdy
  | mdyHM
deriving Repr, DecidableEq

/-- Directive list of each format string. -/
def fmtToks : Fmt → List Tok
  | .ymd => [.year4, .mon, .day]
  | .ymdHM => [.year4, .mon, .day, .ws, .hour, .lit ':', .minute]
  | .mdy => [.mon, .lit '/', .day, .lit '/', .year4]
  | .mdyHM => [.mon, .lit '/', .day, .lit '/', .year4, .ws, .hour, .lit ':', .minute]

/-- `datetime.strptime(s, fmt)`: regex match plus the range checks of the
`datetime` constructor. -/
def strptime (f : Fmt) (s : String) : Option PyDateTime :=
  match (matchToks (fmtToks f) {} s.toList).head? with
  | none => none
  | some p =>
    if 1 ≤ p.y ∧ p.d ≤ daysInMonth p.y p.m then
      some ⟨p.y, p.m, p.d, p.h, p.mi⟩
    else
      none

/-- `Station._parse_known_date_formats` (station.py:454-478): try the four
formats in order, return the first success, `none` models the final
`ValueError`. -/
def _parse_known_date_formats (s : String) : Option PyDateTime :=
  match strptime .ymd s with
  | some d => some d
  | none =>
    match strptime .ymdHM s with
    | some d => some d
    | none =>
      match strptime .mdy s with
      | some d => some d
      | none =>
        match strptime .mdyHM s with
        | some d => some d
        | none => none

/-! ### Cells, rows and data frames

`json_normalize` turns the decoded rows into a table whose cells are the
JSON strings; `pd.to_numeric(..., errors="coerce")` later replaces the
cells of selected columns by numbers, turning unparseable entries into
missing values.  A row is an association list from column name to cell;
a frame is a list of rows. -/

/-- A table cell: a raw string, a coerced number, or a missing value. -/
inductive Cell where
  | str (v : String)
  | num (v : ℚ)
  | nan
deriving Repr, DecidableEq

abbrev Row := List (String × Cell)

abbrev DF := List Row

/-- Errors of the data-fetch pipeline: `ValueError` on an unparseable
date, `ValueError` from `_build_request_url`, `COOPSAPIError` from
`_url2pandas`, and pandas `KeyError` on a missing column label. -/
inductive GetDataError where
  | invalidDate (s : String)
  | invalidArg (msg : String)
  | coops (msg : String)
  | keyError (labels : List String)
deriving Repr, DecidableEq

deriving instance DecidableEq for Except

/-- Cell of column `k` in row `r`; a column absent from this row (but
present elsewhere in the frame) reads as missing, as after a pandas
concat of frames with different columns. -/
def rowGetD (r : Row) (k : String) : Cell :=
  ((r.find? (fun p => p.1 == k)).map Prod.snd).getD Cell.nan

/-- Column renaming: map `k` through the rename table, else keep it. -/
def renameKey (m : List (String × String)) (k : String) : String :=
  match m.find? (fun p => p.1 == k) with
  | some p => p.2
  | none => k

/-- `df.rename(columns=m)` applied to one row. -/
def renameRow (m : List (String × String)) (r : Row) : Row :=
  r.map fun p => (renameKey m p.1, p.2)

/-- `df.columns`: the column labels of the frame in order of first
appearance across its rows. -/
def columnsOf (df : DF) : List String :=
  df.foldl (fun acc r => acc ++ (r.map Prod.fst).filter (fun k => ¬ acc.contains k)) []

/-- `df.columns.drop(labels)`: the labels removed from the column index;
pandas raises `KeyError` listing the labels not found. -/
def indexDrop (cols labels : List String) : Except GetDataError (List String) :=
  let missing := labels.filter (fun l => ¬ cols.contains l)
  if missing.isEmpty then .ok (cols.filter (fun c => ¬ labels.contains c))
  else .error (.keyError missing)

/-- Value of a list of ASCII digits. -/
def natOfDigits (cs : List Char) : Nat :=
  cs.foldl (fun a c => 10 * a + ((digitVal c).getD 0)) 0

/-- Decimal number parsing as accepted by `pd.to_numeric` for the plain
sign/digits/point strings the API returns (scientific or special float
forms are not modelled; they do not occur in this API's payloads). -/
def parseDec (s : String) : Option ℚ :=
  let cs := s.toList
  let sgn : Int × List Char :=
    match cs with
    | '-' :: r => (-1, r)
    | '+' :: r => (1, r)
    | _ => (1, cs)
  let ip := sgn.2.takeWhile (fun c => (digitVal c).isSome)
  let rest := sgn.2.drop ip.length
  match rest with
  | [] => if ip.isEmpty then none else some (mkRat (sgn.1 * (natOfDigits ip : Int)) 1)
  | '.' :: fp =>
    if fp.all (fun c => (digitVal c).isSome) ∧ (¬ ip.isEmpty ∨ ¬ fp.isEmpty) then
      some (mkRat (sgn.1 * ((natOfDigits ip * 10 ^ fp.length + natOfDigits fp : Nat) : Int)) (10 ^ fp.length))
    else none
  | _ => none

/-- `pd.to_numeric(x, errors="coerce")` on one cell. -/
def coerceCell : Cell → Cell
  | .str s =>
    match parseDec s with
    | some q => .num q
    | none => .nan
  | c => c

/-- `df[data_cols] = df[data_cols].apply(pd.to_numeric, ...)`. -/
def applyToNumeric (dataCols : List String) (df : DF) : DF :=
  df.map fun r => r.map fun p => if dataCols.contains p.1 then (p.1, coerceCell p.2) else p

/-- `df[col] = pd.to_datetime(df[col])`: requires the column to exist
(`KeyError` otherwise); the timestamp cells keep their API string form,
whose equality coincides with timestamp equality for the API's uniform
format. -/
def toDatetimeCol (df : DF) (col : String) : Except GetDataError DF :=
  if (columnsOf df).contains col then .ok df else .error (.keyError [col])

/-! ### `_build_request_url` (station.py:242-394) -/

/-- Error text raised when a water-level-family product has no datum. -/
def noDatumMsg : String :=
  "No datum specified for water level data. See https://tidesandcurrents.noaa.gov/api/#datum for list of available datums"

/-- Error text raised when `currents` has no bin number. -/
def noBinMsg : String :=
  "No bin specified for current data. Bin info can be found on the station info page (e.g., https://tidesandcurrents.noaa.gov/cdata/StationInfo?id=PUG1515)"

/-- The query parameters common to every product. -/
def baseParams (stationId bStr eStr product units timeZone : String) : List (String × String) :=
  [("begin_date", bStr), ("end_date", eStr), ("station", stationId),
   ("product", product), ("units", units), ("time_zone", timeZone),
   ("application", "noaa_coops"), ("format", "json")]

/-- `Station._build_request_url`: per-product parameter validation and
assembly.  The result is the list of query parameters of the prepared
URL (`requests` omits parameters whose value is `None` when encoding, so
an absent optional parameter simply does not appear). -/
def _build_request_url (stationId bStr eStr product : String) (datum : Option String)
    (binNum : Option Int) (interval : Option String) (units timeZone : String) :
    Except GetDataError (List (String × String)) :=
  if product == "water_level" then
    match datum with
    | none => .error (.invalidArg noDatumMsg)
    | some dat =>
      .ok (baseParams stationId bStr eStr product units timeZone ++ [("datum", dat)] ++
        (match interval with | some iv => [("interval", iv)] | none => []))
  else if product == "hourly_height" then
    match datum with
    | none => .error (.invalidArg noDatumMsg)
    | some dat => .ok (baseParams stationId bStr eStr product units timeZone ++ [("datum", dat)])
  else if product == "high_low" then
    match datum with
    | none => .error (.invalidArg noDatumMsg)
    | some dat => .ok (baseParams stationId bStr eStr product units timeZone ++ [("datum", dat)])
  else if product == "predictions" then
    .ok (baseParams stationId bStr eStr product units timeZone ++
      (match datum with | some dat => [("datum", dat)] | none => []) ++
      (match interval with | some iv => [("interval", iv)] | none => []))
  else if product == "currents" then
    match binNum with
    | none => .error (.invalidArg noBinMsg)
    | some b => .ok (baseParams stationId bStr eStr product units timeZone ++ [("bin", toString b)])
  else
    .ok (baseParams stationId bStr eStr product units timeZone ++
      (match interval with | some iv => [("interval", iv)] | none => []))

/-! ### `_url2pandas` (station.py:396-452) -/

/-- A decoded API response body: either the row list found under the
product's payload key ("predictions" for the predictions product,
"data" otherwise), or the `error.message` of an error body. -/
inductive ApiResp where
  | payload (rows : List (List (String × String)))
  | apiError (message : String)

/-- The benign error message for an empty sub-range (station.py:421-425). -/
def no_data_error : String :=
  "No data was found. This product may not be offered at this station at the requested time."

/-- Python `str.lstrip().rstrip()` for ASCII whitespace. -/
def pyStrip (s : String) : String :=
  let ws := fun (c : Char) => c == ' ' || c == '\t' || c == '\n' || c == '\r'
  let l := s.toList.dropWhile ws
  String.mk ((l.reverse.dropWhile ws).reverse)

/-- `json_normalize` of the decoded rows: every cell starts as a string. -/
def dfOfPayload (rows : List (List (String × String))) : DF :=
  rows.map fun r => r.map fun p => (p.1, Cell.str p.2)

/-- `Station._url2pandas`: classify one response.  A single-block error
is always raised; a multi-block error equal to the known no-data message
contributes an empty frame; any other multi-block error is raised. -/
def _url2pandas (resp : ApiResp) (numRequestBlocks : Nat) : Except GetDataError DF :=
  match resp with
  | .payload rows => .ok (dfOfPayload rows)
  | .apiError msg =>
    if numRequestBlocks == 1 then .error (.coops (pyStrip msg))
    else if msg == no_data_error then .ok []
    else .error (.coops (pyStrip msg))

/-! ### Block planning inside `get_data` (station.py:508-598) -/

/-- One planned request: the begin/end strings put in the URL, the
`num_request_blocks` value passed to `_url2pandas`, and the block's
begin/end instants in minutes. -/
structure Req where
  bStr : String
  eStr : String
  nParam : Nat
  bMin : Nat
  eMin : Nat
deriving Repr, DecidableEq

/-- The loop bodies of the two multi-block branches: block `i` starts at
`begin + i` blocks, ends one block later clamped to `e`, is formatted
date-only, and passes the loop bound `n` (not `n + 1`) to
`_url2pandas`. -/
def mkBlocks (b e size n : Nat) : List Req :=
  (List.range (n + 1)).map fun i =>
    let bb := b + i * (size * 1440)
    let ee0 := bb + size * 1440
    let ee := if e < ee0 then e else ee0
    ⟨fmtYmd bb, fmtYmd ee, n, bb, ee⟩

/-- The block size (in days) the branches of `get_data` grant a
product: 365 days for `hourly_height` and `high_low`, 31 days
otherwise. -/
def blockSizeDays (product : String) : Nat :=
  if product = "hourly_height" ∨ product = "high_low" then 365 else 31

/-- The request plan of `get_data`: the four branches on the span in
whole days (`delta.days`, floor) and the product. -/
def requests (product bstr estr : String) (b e : Nat) : List Req :=
  let days : Int := ((e : Int) - (b : Int)).fdiv 1440
  if days ≤ 31 then
    [⟨fmtYmdHM b, fmtYmdHM e, 1, b, e⟩]
  else if days ≤ 365 ∧ (product = "hourly_height" ∨ product = "high_low") then
    [⟨bstr, estr, 1, b, e⟩]
  else if product = "hourly_height" ∨ product = "high_low" then
    mkBlocks b e 365 (days.toNat / 365)
  else
    mkBlocks b e 31 (days.toNat / 31)

/-- Issue the planned requests in order: build each URL (validation may
raise), classify each response, concatenate the contributed rows;
the first error aborts the remaining blocks. -/
def fetchRows (stationId product : String) (datum : Option String) (binNum : Option Int)
    (interval : Option String) (units timeZone : String) (reqs : List Req)
    (oracle : Nat → ApiResp) : Except GetDataError DF :=
  reqs.enum.foldlM (fun acc p => do
    let _ ← _build_request_url stationId p.2.bStr p.2.eStr product datum binNum interval units timeZone
    let rows ← _url2pandas (oracle p.1) p.2.nParam
    pure (acc ++ rows)) ([] : DF)

/-! ### Per-product normalization (station.py:600-859) -/

/-- The shared rename / drop / coerce / to_datetime sequence of the
simple product branches. -/
def normalizeSimple (renames : List (String × String)) (keep : List String) (df : DF) :
    Except GetDataError DF :=
  let df1 := df.map (renameRow renames)
  match indexDrop (columnsOf df1) keep with
  | .error e => .error e
  | .ok dataCols => toDatetimeCol (applyToNumeric dataCols df1) "date_time"

/-- `pat` occurs at the head of `s`. -/
def leadsWith : List Char → List Char → Bool
  | [], _ => true
  | _ :: _, [] => false
  | p :: ps, c :: cs => p == c && leadsWith ps cs

/-- `pat` occurs somewhere in `s` (pandas `.str.contains` with a pattern
free of regex metacharacters). -/
def hasSub (pat : List Char) : List Char → Bool
  | [] => pat.isEmpty
  | c :: cs => leadsWith pat (c :: cs) || hasSub pat cs

/-- `df["high_low"] == "HH"` on one cell. -/
def selHH (c : Cell) : Bool :=
  match c with
  | .str s => s == "HH"
  | _ => false

/-- `df["high_low"] == "H "` on one cell. -/
def selH (c : Cell) : Bool :=
  match c with
  | .str s => s == "H "
  | _ => false

/-- `df["high_low"].str.contains("L ")` on one cell. -/
def selL (c : Cell) : Bool :=
  match c with
  | .str s => hasSub ['L', ' '] s.toList
  | _ => false

/-- `df["high_low"].str.contains("LL")` on one cell. -/
def selLL (c : Cell) : Bool :=
  match c with
  | .str s => hasSub ['L', 'L'] s.toList
  | _ => false

/-- `pd.to_datetime(ts).date()` for the API's `YYYY-MM-DD HH:MM`
timestamp strings: the calendar-date part. -/
def dateOf (s : String) : String :=
  String.mk (s.toList.takeWhile (fun c => c != ' '))

/-- The string of a string cell (the pipeline only applies it there). -/
def strOfCell : Cell → String
  | .str s => s
  | _ => ""

/-- One event-type sub-table (station.py:654-710): filter by marker,
rename the time and value columns with the event suffix, index by
calendar date, drop `flags` and `high_low` (the `HH` sub-table alone
keeps its re-assigned `date_time` column, source line 707 vs 708-710). -/
def hl_sub (df : DF) (sel : Cell → Bool) (sfx : String) (keepDate : Bool) :
    List (String × Row) :=
  (df.filter fun r => sel (rowGetD r "high_low")).map fun r =>
    let r1 := renameRow [("date_time", "date_time_" ++ sfx), ("water_level", sfx ++ "_water_level")] r
    let d := dateOf (strOfCell (rowGetD r1 ("date_time_" ++ sfx)))
    let r2 := r1.filter fun kv => ¬ (kv.1 == "flags" || kv.1 == "high_low")
    (d, if keepDate then ("date_time", Cell.str d) :: r2 else r2)

/-- The string values of column `vCol` among the rows of date `d`
(missing values are skipped, as by pandas groupwise max). -/
def hl_vals (t : List (String × Row)) (vCol d : String) : List String :=
  t.filterMap fun p =>
    if p.1 == d then
      match rowGetD p.2 vCol with
      | .str s => some s
      | _ => none
    else none

/-- Lexicographic code-point comparison of char lists (Python string
`<`). -/
def listLtB : List Char → List Char → Bool
  | [], [] => false
  | [], _ :: _ => true
  | _ :: _, [] => false
  | a :: as, b :: bs =>
    if a.toNat < b.toNat then true
    else if b.toNat < a.toNat then false
    else listLtB as bs

/-- Binary maximum of two strings in lexicographic order. -/
def maxS (a b : String) : String :=
  if listLtB a.toList b.toList then b else a

/-- Greatest element of a string list (Python `max` on the group). -/
def listMaxS : List String → Option String
  | [] => none
  | c :: cs => some (cs.foldl maxS c)

/-- `maxes = df.groupby(df.index).col.transform(max); df = df.loc[df.col
== maxes]` (station.py:712-720): keep the rows whose value equals their
date group's maximum.  The source uses `max` for all four event types,
including the two low types whose result variables are named `mins`. -/
def hl_collapse (vCol : String) (t : List (String × Row)) : List (String × Row) :=
  t.filter fun p =>
    match rowGetD p.2 vCol, listMaxS (hl_vals t vCol p.1) with
    | .str s, some m => s == m
    | _, _ => false

/-- One join side's contribution at a key: its same-key rows, or a
single missing value when the side has no row there. -/
def optRows {α : Type} : List α → List (Option α)
  | [] => [none]
  | l => l.map some

/-- `L.join(R, how="outer")` on date-indexed tables: one output row per
combination of same-date rows, absent sides filled with missing values.
pandas sorts the union of the two indexes; we keep first-appearance
order, which no membership statement depends on. -/
def outerJoin {α β : Type} (L : List (String × α)) (R : List (String × β)) :
    List (String × (Option α × Option β)) :=
  (((L.map Prod.fst) ++ (R.map Prod.fst)).dedup).flatMap fun d =>
    (optRows ((L.filter (fun p => p.1 == d)).map Prod.snd)).flatMap fun l =>
      (optRows ((R.filter (fun p => p.1 == d)).map Prod.snd)).map fun r => (d, (l, r))

/-- Collapsed higher-high sub-table of the renamed frame. -/
def hl_HH (df : DF) : List (String × Row) :=
  hl_collapse "HH_water_level" (hl_sub df selHH "HH" true)

/-- Collapsed high sub-table of the renamed frame. -/
def hl_H (df : DF) : List (String × Row) :=
  hl_collapse "H_water_level" (hl_sub df selH "H" false)

/-- Collapsed low sub-table of the renamed frame. -/
def hl_L (df : DF) : List (String × Row) :=
  hl_collapse "L_water_level" (hl_sub df selL "L" false)

/-- Collapsed lower-low sub-table of the renamed frame. -/
def hl_LL (df : DF) : List (String × Row) :=
  hl_collapse "LL_water_level" (hl_sub df selLL "LL" false)

/-- Row type after the three outer joins
`df_HH.join(df_H).join(df_L).join(df_LL)`. -/
abbrev HLJoined := Option (Option (Option Row × Option Row) × Option Row) × Option Row

/-- The higher-high component of a joined row. -/
def hlHH (j : HLJoined) : Option Row :=
  j.1.bind fun a => a.1.bind fun b => b.1

/-- The high component of a joined row. -/
def hlH (j : HLJoined) : Option Row :=
  j.1.bind fun a => a.1.bind fun b => b.2

/-- The low component of a joined row. -/
def hlL (j : HLJoined) : Option Row :=
  j.1.bind fun a => a.2

/-- The lower-low component of a joined row. -/
def hlLL (j : HLJoined) : Option Row :=
  j.2

/-- The three outer joins of the four collapsed sub-tables
(station.py:722-724). -/
def hl_join (df : DF) : List (String × HLJoined) :=
  outerJoin (outerJoin (outerJoin (hl_HH df) (hl_H df)) (hl_L df)) (hl_LL df)

/-- Column `k` of an optional side row, missing when the side is absent. -/
def getOpt (o : Option Row) (k : String) : Cell :=
  match o with
  | some r => rowGetD r k
  | none => .nan

/-- Flatten one joined row back to a frame row; `date_time` is
re-assigned from the index date (station.py:739). -/
def hl_row (d : String) (j : HLJoined) : Row :=
  [("date_time", Cell.str d),
   ("date_time_HH", getOpt (hlHH j) "date_time_HH"),
   ("HH_water_level", getOpt (hlHH j) "HH_water_level"),
   ("date_time_H", getOpt (hlH j) "date_time_H"),
   ("H_water_level", getOpt (hlH j) "H_water_level"),
   ("date_time_L", getOpt (hlL j) "date_time_L"),
   ("L_water_level", getOpt (hlL j) "L_water_level"),
   ("date_time_LL", getOpt (hlLL j) "date_time_LL"),
   ("LL_water_level", getOpt (hlLL j) "LL_water_level")]

/-- The `high_low` normalization branch (station.py:641-743).  The
column-existence checks model the pandas lookup errors raised, in
pipeline order, when the raw frame lacks one of the used columns
(in particular the empty frame of an all-empty fetch). -/
def normalizeHighLow (df : DF) : Except GetDataError DF :=
  let df1 := df.map (renameRow [("f", "flags"), ("ty", "high_low"), ("t", "date_time"), ("v", "water_level")])
  let cols := columnsOf df1
  if ¬ cols.contains "high_low" then .error (.keyError ["high_low"])
  else if ¬ cols.contains "date_time" then .error (.keyError ["date_time"])
  else if ¬ cols.contains "flags" then .error (.keyError ["flags"])
  else if ¬ cols.contains "water_level" then .error (.keyError ["water_level"])
  else
    let joined := (hl_join df1).map fun p => hl_row p.1 p.2
    match indexDrop (columnsOf joined)
        ["date_time", "date_time_HH", "date_time_H", "date_time_L", "date_time_LL"] with
    | .error e => .error e
    | .ok dataCols => .ok (applyToNumeric dataCols joined)

/-- The per-product rename / retype dispatch (station.py:600-859). -/
def normalize (product : String) (interval : Option String) (df : DF) :
    Except GetDataError DF :=
  if product == "water_level" then
    normalizeSimple [("f", "flags"), ("q", "QC"), ("s", "sigma"), ("t", "date_time"), ("v", "water_level")]
      ["flags", "QC", "date_time"] df
  else if product == "hourly_height" then
    normalizeSimple [("f", "flags"), ("s", "sigma"), ("t", "date_time"), ("v", "hourly_height")]
      ["flags", "date_time"] df
  else if product == "high_low" then
    normalizeHighLow df
  else if product == "predictions" then
    if interval == some "h" || interval == none then
      normalizeSimple [("t", "date_time"), ("v", "predictions")] ["date_time"] df
    else if interval == some "hilo" then
      normalizeSimple [("t", "date_time"), ("v", "predictions"), ("type", "hi_lo")]
        ["date_time", "hi_lo"] df
    else
      toDatetimeCol df "date_time"
  else if product == "currents" then
    normalizeSimple [("b", "bin"), ("d", "direction"), ("s", "speed"), ("t", "date_time")]
      ["date_time"] df
  else if product == "wind" then
    normalizeSimple [("d", "dir"), ("dr", "compass"), ("f", "flags"), ("g", "gust_speed"), ("s", "wind_speed"), ("t", "date_time")]
      ["date_time", "flags", "compass"] df
  else if product == "air_pressure" then
    normalizeSimple [("f", "flags"), ("t", "date_time"), ("v", "air_pressure")]
      ["date_time", "flags"] df
  else if product == "air_temperature" then
    normalizeSimple [("f", "flags"), ("t", "date_time"), ("v", "air_temperature")]
      ["date_time", "flags"] df
  else if product == "water_temperature" then
    normalizeSimple [("f", "flags"), ("t", "date_time"), ("v", "water_temperature")]
      ["date_time", "flags"] df
  else
    .ok df

/-! ### Final assembly (station.py:861-871) -/

/-- `df.index = df["date_time"]; df = df.drop(columns=["date_time"])`. -/
def setIndexTable (df : DF) : Except GetDataError (List (Cell × Row)) :=
  if (columnsOf df).contains "date_time" then
    .ok (df.map fun r => (rowGetD r "date_time", r.filter fun kv => kv.1 != "date_time"))
  else .error (.keyError ["date_time"])

/-- Minute value of an API `YYYY-MM-DD HH:MM` timestamp string. -/
def parseApiTs (s : String) : Option Nat :=
  match (matchToks [.year4, .lit '-', .mon, .lit '-', .day, .ws, .hour, .lit ':', .minute] {} s.toList).head? with
  | some p => if 1 ≤ p.y ∧ p.d ≤ daysInMonth p.y p.m then some (dtToMin ⟨p.y, p.m, p.d, p.h, p.mi⟩) else none
  | none => none

/-- Render a minute value back to `YYYY-MM-DD HH:MM`. -/
def fmtApiTs (t : Nat) : String :=
  let ymd := fromOrdinal (t / 1440)
  pad4 ymd.1 ++ "-" ++ pad2 ymd.2.1 ++ "-" ++ pad2 ymd.2.2 ++ " " ++
    pad2 (t % 1440 / 60) ++ ":" ++ pad2 (t % 60)

/-- `df.resample("H").first()` (station.py:867): one row per hour from
the first to the last indexed hour, carrying the earliest row of each
hour and missing values for empty hours. -/
def resampleHourlyFirst (t : List (Cell × Row)) : List (Cell × Row) :=
  let parsed := t.filterMap fun p =>
    match p.1 with
    | .str s => (parseApiTs s).map fun m => (m, p.2)
    | _ => none
  match parsed with
  | [] => []
  | q :: qs =>
    let minH := (qs.foldl (fun a b => Nat.min a b.1) q.1) / 60
    let maxH := (qs.foldl (fun a b => Nat.max a b.1) q.1) / 60
    let cols := columnsOf (t.map Prod.snd)
    (List.range (maxH - minH + 1)).map fun k =>
      let h := minH + k
      let group := parsed.filter (fun pr => pr.1 / 60 == h)
      match group.foldl (fun (acc : Option (Nat × Row)) pr =>
          match acc with
          | none => some pr
          | some a => if pr.1 < a.1 then some pr else acc) none with
      | some a => (Cell.str (fmtApiTs (h * 60)), a.2)
      | none => (Cell.str (fmtApiTs (h * 60)), cols.map fun c => (c, Cell.nan))

/-- Recursion of `drop_duplicates`. -/
def dropDupGo : List (Cell × Row) → List Row → List (Cell × Row)
  | [], _ => []
  | p :: ps, seen =>
    if seen.contains p.2 then dropDupGo ps seen else p :: dropDupGo ps (p.2 :: seen)

/-- `df.drop_duplicates()`: keep the first row of each distinct
column-value combination (the index is not part of the comparison). -/
def drop_duplicates (t : List (Cell × Row)) : List (Cell × Row) :=
  dropDupGo t []

/-- The tail of `get_data` after normalization: set the timestamp index,
resample hourly requests, and return.  The source calls
`df.drop_duplicates()` at station.py:869 without assigning its result or
passing `inplace`, so the deduplicated frame is discarded and the table
is returned as assembled. -/
def finalize (product : String) (interval : Option String) (df : DF) :
    Except GetDataError (List (Cell × Row)) :=
  match normalize product interval df with
  | .error e => .error e
  | .ok df1 =>
    match setIndexTable df1 with
    | .error e => .error e
    | .ok t =>
      let t := if (product == "water_level" || product == "currents") && interval == some "h"
        then resampleHourlyFirst t else t
      let _discarded := drop_duplicates t
      .ok t

/-- `Station.get_data` (station.py:480-871): parse the two dates, plan
and issue the requests, assemble the rows, normalize, index and return.
The `oracle` gives the decoded response of the i-th issued request. -/
def get_data (stationId bstr estr product : String) (datum : Option String)
    (binNum : Option Int) (interval : Option String) (units timeZone : String)
    (oracle : Nat → ApiResp) : Except GetDataError (List (Cell × Row)) :=
  match _parse_known_date_formats bstr with
  | none => .error (.invalidDate bstr)
  | some bdt =>
    match _parse_known_date_formats estr with
    | none => .error (.invalidDate estr)
    | some edt =>
      match fetchRows stationId product datum binNum interval units timeZone
          (requests product bstr estr (dtToMin bdt) (dtToMin edt)) oracle with
      | .error e => .error e
      | .ok df => finalize product interval df

/-! ### `get_stations_from_bbox` (station.py:28-66) -/

/-- A station entry of the metadata listing used by the bounding-box
lookup; coordinates are modelled as rationals (the code only compares
them). -/
structure BboxStation where
  id : String
  lat : ℚ
  lng : ℚ
deriving Repr, DecidableEq

/-- Put a two-element coordinate pair in ascending order (the in-place
swap of station.py:54-58). -/
def normPair (c : List ℚ) : List ℚ :=
  match c with
  | [a, b] => if a > b then [b, a] else [a, b]
  | l => l

/-- The strict bounding-box membership test of station.py:62-63. -/
def bboxPred (la0 la1 lo0 lo1 : ℚ) (s : BboxStation) : Bool :=
  decide (lo0 < s.lng) && decide (s.lng < lo1) && decide (la0 < s.lat) && decide (s.lat < la1)

/-- The stations passing the strict bounds after normalization. -/
def bboxSelected (latCoords lonCoords : List ℚ) (stations : List BboxStation) :
    List BboxStation :=
  stations.filter (bboxPred ((normPair latCoords).getD 0 0) ((normPair latCoords).getD 1 0)
    ((normPair lonCoords).getD 0 0) ((normPair lonCoords).getD 1 0))

/-- `get_stations_from_bbox`: length check, coordinate normalization,
strict filter.  The fetched station listing is the `stations`
argument. -/
def get_stations_from_bbox (latCoords lonCoords : List ℚ) (stations : List BboxStation) :
    Except String (List String) :=
  if latCoords.length ≠ 2 ∨ lonCoords.length ≠ 2 then
    .error "lat_coords and lon_coords must be of length 2."
  else
    .ok ((bboxSelected latCoords lonCoords stations).map BboxStation.id)

/-! ### Concrete fetch scenarios used by the theorems -/

/-- A decoded water-level observation row. -/
def wlSampleRow : List (String × String) :=
  [("t", "2015-01-15 00:00"), ("v", "1.0"), ("s", "0.1"), ("f", "0,0,0,0"), ("q", "v")]

/-- Oracle answering every request with the same single row (as when two
blocks overlap on the same observation). -/
def oracleSameRow : Nat → ApiResp := fun _ => .payload [wlSampleRow]

/-- Oracle whose first response is the benign no-data error and whose
later responses carry one row. -/
def oracleNoDataFirst : Nat → ApiResp := fun i =>
  if i == 0 then .apiError no_data_error else .payload [wlSampleRow]

/-- Oracle answering every request with the benign no-data error. -/
def oracleAllNoData : Nat → ApiResp := fun _ => .apiError no_data_error

/-- `wlSampleRow` after water-level normalization and index removal. -/
def wlIndexedRow : Row :=
  [("water_level", Cell.num (mkRat 1 1)), ("sigma", Cell.num (mkRat 1 10)),
   ("flags", Cell.str "0,0,0,0"), ("QC", Cell.str "v")]

/-- A raw high_low frame carrying two same-day low events of values
1.0 and 2.0. -/
def hlTwoLows : DF :=
  dfOfPayload
    [[("t", "2015-01-01 04:00"), ("v", "1.0"), ("ty", "L "), ("f", "0,0")],
     [("t", "2015-01-01 16:00"), ("v", "2.0"), ("ty", "L "), ("f", "0,0")]]

/-- The single joined row produced for `hlTwoLows`. -/
def hlTwoLowsRow : Row :=
  [("date_time", Cell.str "2015-01-01"),
   ("date_time_HH", Cell.nan), ("HH_water_level", Cell.nan),
   ("date_time_H", Cell.nan), ("H_water_level", Cell.nan),
   ("date_time_L", Cell.str "2015-01-01 16:00"), ("L_water_level", Cell.num (mkRat 2 1)),
   ("date_time_LL", Cell.nan), ("LL_water_level", Cell.nan)]

/-- The rename table of the high_low branch (station.py:643-651). -/
def hlRenames : List (String × String) :=
  [("f", "flags"), ("ty", "high_low"), ("t", "date_time"), ("v", "water_level")]

/-- The joined row `hl_join` produces for the renamed `hlTwoLows`. -/
def c7JoinRow : HLJoined :=
  (some (none, some [("date_time_L", Cell.str "2015-01-01 16:00"),
                     ("L_water_level", Cell.str "2.0")]), none)

/-! ### Theorems settling the claims -/

/-- C1: the spec says a returned table never holds two rows with the
same timestamp, the first-seen row of an overlap being kept; the
source's final `df.drop_duplicates()` (station.py:869, commented
"Handle duplicates due to overlapping requests") is called without
assigning its result or passing `inplace`, so its output is discarded:
a table assembled from two overlapping 31-day blocks is returned with
both copies of the repeated observation, two rows sharing one
timestamp. -/
theorem C1_duplicate_timestamps_survive :
    get_data "9447130" "20150101" "20150202" "water_level" (some "MLLW") none none
        "metric" "gmt" oracleSameRow =
      .ok [(Cell.str "2015-01-15 00:00", wlIndexedRow),
           (Cell.str "2015-01-15 00:00", wlIndexedRow)] ∧
    (get_data "9447130" "20150101" "20150202" "water_level" (some "MLLW") none none
        "metric" "gmt" oracleSameRow).map (fun t => decide (t.map Prod.fst).Nodup) =
      .ok false := by
  constructor
  · decide
  · decide

/-- C2: the spec says that in a multi-block fetch a block answering
with the known no-data message contributes zero rows and the remaining
blocks are still requested; the source passes the loop bound
`num_31day_blocks = floor(span/31)` instead of the number of issued
requests to `_url2pandas` (station.py:597), so a 32-day span issues two
requests yet each is classified as a single-block request
(`num_request_blocks = 1`) and the benign no-data error of the first
block is raised, aborting the fetch. -/
theorem C2_two_block_fetch_raises_on_no_data :
    (requests "water_level" "20150101" "20150202" (dtToMin ⟨2015, 1, 1, 0, 0⟩)
        (dtToMin ⟨2015, 2, 2, 0, 0⟩)).length = 2 ∧
    (requests "water_level" "20150101" "20150202" (dtToMin ⟨2015, 1, 1, 0, 0⟩)
        (dtToMin ⟨2015, 2, 2, 0, 0⟩)).map (fun r => r.nParam) = [1, 1] ∧
    get_data "9447130" "20150101" "20150202" "water_level" (some "MLLW") none none
        "metric" "gmt" oracleNoDataFirst = .error (.coops no_data_error) := by
  refine ⟨by decide, by decide, by decide⟩

/-- C4 counterexample: the supplied datum "navd88" is outside every
documented datum enumeration, yet `_build_request_url` accepts it and
assembles the request parameters instead of failing validation. -/
theorem C4_lowercase_datum_passes_validation :
    _build_request_url "9447130" "20150101" "20150331" "water_level" (some "navd88")
        none none "metric" "gmt" =
      .ok (baseParams "9447130" "20150101" "20150331" "water_level" "metric" "gmt" ++
        [("datum", "navd88")]) := by
  decide

/-- C4 (amended): for product `water_level`, pre-request validation
checks only that some datum is supplied: it fails exactly when the
datum is absent, and any supplied datum string (such as "navd88") is
accepted, the rejection of an unknown datum being left to the upstream
API's response. -/
theorem C4_datum_checked_for_presence_only (stationId bStr eStr : String)
    (datum : Option String) (binNum : Option Int) (interval : Option String)
    (units tz : String) :
    (_build_request_url stationId bStr eStr "water_level" datum binNum interval units tz).isOk
      = datum.isSome := by
  cases datum <;> rfl

/-- C5 counterexample: a 93-day water-level fetch whose four blocks all
answer with the benign no-data message assembles zero rows, and
`get_data` then fails with the pandas column-lookup error of
`df.columns.drop` on the empty frame (station.py:616), not with a
"no data found" condition naming the product and date span. -/
theorem C5_empty_assembly_key_error :
    get_data "9447130" "20150101" "20150404" "water_level" (some "MLLW") none none
        "metric" "gmt" oracleAllNoData = .error (.keyError ["flags", "QC", "date_time"]) := by
  decide

lemma finalize_empty (product : String) (interval : Option String) :
    ∃ labels, finalize product interval ([] : DF) = .error (.keyError labels) := by
  unfold finalize normalize
  by_cases h1 : (product == "water_level") = true
  · rw [if_pos h1]
    exact ⟨["flags", "QC", "date_time"], rfl⟩
  · rw [if_neg h1]
    by_cases h2 : (product == "hourly_height") = true
    · rw [if_pos h2]
      exact ⟨["flags", "date_time"], rfl⟩
    · rw [if_neg h2]
      by_cases h3 : (product == "high_low") = true
      · rw [if_pos h3]
        exact ⟨["high_low"], rfl⟩
      · rw [if_neg h3]
        by_cases h4 : (product == "predictions") = true
        · rw [if_pos h4]
          by_cases h4a : (interval == some "h" || interval == none) = true
          · rw [if_pos h4a]
            exact ⟨["date_time"], rfl⟩
          · rw [if_neg h4a]
            by_cases h4b : (interval == some "hilo") = true
            · rw [if_pos h4b]
              exact ⟨["date_time", "hi_lo"], rfl⟩
            · rw [if_neg h4b]
              exact ⟨["date_time"], rfl⟩
        · rw [if_neg h4]
          by_cases h5 : (product == "currents") = true
          · rw [if_pos h5]
            exact ⟨["date_time"], rfl⟩
          · rw [if_neg h5]
            by_cases h6 : (product == "wind") = true
            · rw [if_pos h6]
              exact ⟨["date_time", "flags", "compass"], rfl⟩
            · rw [if_neg h6]
              by_cases h7 : (product == "air_pressure") = true
              · rw [if_pos h7]
                exact ⟨["date_time", "flags"], rfl⟩
              · rw [if_neg h7]
                by_cases h8 : (product == "air_temperature") = true
                · rw [if_pos h8]
                  exact ⟨["date_time", "flags"], rfl⟩
                · rw [if_neg h8]
                  by_cases h9 : (product == "water_temperature") = true
                  · rw [if_pos h9]
                    exact ⟨["date_time", "flags"], rfl⟩
                  · rw [if_neg h9]
                    exact ⟨["date_time"], rfl⟩

/-- C5 (amended): a query of any product whose assembled result has
zero rows never returns an empty table: `get_data` fails with a pandas
column-lookup `KeyError` whose labels depend on the product branch
(`df.columns.drop` on the empty frame for the simple products, e.g.
`['flags','QC','date_time']` for water_level; the `df["high_low"]`
column selection of station.py:654 for high_low; the
`df["date_time"]` index assignment of station.py:862 for unlisted
products), not a "no data found" condition naming the product and the
requested date span. -/
theorem C5_empty_assembly_errors_in_normalization
    (stationId bstr estr product : String) (datum : Option String) (binNum : Option Int)
    (interval : Option String) (units tz : String) (oracle : Nat → ApiResp)
    (bdt edt : PyDateTime)
    (hb : _parse_known_date_formats bstr = some bdt)
    (he : _parse_known_date_formats estr = some edt)
    (hfetch : fetchRows stationId product datum binNum interval units tz
        (requests product bstr estr (dtToMin bdt) (dtToMin edt)) oracle = .ok []) :
    (∃ labels, get_data stationId bstr estr product datum binNum interval units tz oracle =
      .error (.keyError labels)) ∧
    (product = "water_level" →
      get_data stationId bstr estr product datum binNum interval units tz oracle =
        .error (.keyError ["flags", "QC", "date_time"])) ∧
    (product = "high_low" →
      get_data stationId bstr estr product datum binNum interval units tz oracle =
        .error (.keyError ["high_low"])) := by
  have hget : get_data stationId bstr estr product datum binNum interval units tz oracle =
      finalize product interval [] := by
    unfold get_data
    rw [hb, he]
    dsimp only
    rw [hfetch]
  refine ⟨?_, ?_, ?_⟩
  · rw [hget]
    exact finalize_empty product interval
  · intro hp
    subst hp
    rw [hget]
    rfl
  · intro hp
    subst hp
    rw [hget]
    rfl

theorem C5_empty_assembly_errors_in_normalization_witness :
    get_data "9447130" "20150101" "20150404" "water_level" (some "MLLW") none (some "h")
        "metric" "gmt" oracleAllNoData = .error (.keyError ["flags", "QC", "date_time"]) ∧
    get_data "9447130" "20150101" "20170101" "high_low" (some "MLLW") none none
        "metric" "gmt" oracleAllNoData = .error (.keyError ["high_low"]) :=
  ⟨(C5_empty_assembly_errors_in_normalization "9447130" "20150101" "20150404" "water_level"
      (some "MLLW") none (some "h") "metric" "gmt" oracleAllNoData
      ⟨2015, 1, 1, 0, 0⟩ ⟨2015, 4, 4, 0, 0⟩ (by decide) (by decide) (by decide)).2.1 rfl,
   (C5_empty_assembly_errors_in_normalization "9447130" "20150101" "20170101" "high_low"
      (some "MLLW") none none "metric" "gmt" oracleAllNoData
      ⟨2015, 1, 1, 0, 0⟩ ⟨2017, 1, 1, 0, 0⟩ (by decide) (by decide) (by decide)).2.2 rfl⟩

/-- C6: the spec says same-day duplicates collapse to the extreme
value, the minimum for the low and lower-low types; the source's
collapse applies the groupwise `max` to all four event types (the
variables named `mins` at station.py:717-720 are assigned
`transform(max)`), so of two same-day low events 1.0 and 2.0 the kept
row is the 2.0 maximum, not the minimum. -/
theorem C6_low_collapse_keeps_maximum :
    hl_L (hlTwoLows.map (renameRow hlRenames)) =
      [("2015-01-01",
        [("date_time_L", Cell.str "2015-01-01 16:00"), ("L_water_level", Cell.str "2.0")])] ∧
    normalizeHighLow hlTwoLows = .ok [hlTwoLowsRow] := by
  refine ⟨by decide, by decide⟩

/-- C9 counterexample: a 348-day hourly_height query is answered by a
single request (365-day block size), and its begin/end strings are the
caller's original strings passed through unchanged (station.py:533-542),
not the `YYYYMMDD HH:MM` rendering of the parsed instants that the
31-day single-block path produces. -/
theorem C9_single_block_keeps_raw_strings :
    _parse_known_date_formats "01/01/2015 10:30" = some ⟨2015, 1, 1, 10, 30⟩ ∧
    _parse_known_date_formats "12/15/2015" = some ⟨2015, 12, 15, 0, 0⟩ ∧
    (requests "hourly_height" "01/01/2015 10:30" "12/15/2015"
        (dtToMin ⟨2015, 1, 1, 10, 30⟩) (dtToMin ⟨2015, 12, 15, 0, 0⟩)).map
        (fun r => (r.bStr, r.eStr)) = [("01/01/2015 10:30", "12/15/2015")] ∧
    fmtYmdHM (dtToMin ⟨2015, 1, 1, 10, 30⟩) = "20150101 10:30" ∧
    "01/01/2015 10:30" ≠ "20150101 10:30" := by
  refine ⟨by decide, by decide, by decide, by decide, by decide⟩

lemma mkBlocks_length (b e size n : Nat) : (mkBlocks b e size n).length = n + 1 := by
  simp [mkBlocks]

lemma mkBlocks_get_spec (b e size n i : Nat) (h : i < (mkBlocks b e size n).length) :
    ((mkBlocks b e size n).get ⟨i, h⟩).bMin = b + i * (size * 1440) ∧
    ((mkBlocks b e size n).get ⟨i, h⟩).eMin = min (b + (i + 1) * (size * 1440)) e ∧
    ((mkBlocks b e size n).get ⟨i, h⟩).eMin ≤ e := by
  have hkey : b + i * (size * 1440) + size * 1440 = b + (i + 1) * (size * 1440) := by ring
  simp only [mkBlocks, List.get_eq_getElem, List.getElem_map, List.getElem_range]
  refine ⟨by trivial, ?_, ?_⟩
  · split <;> omega
  · split <;> omega

lemma mem_mkBlocks_fmt {b e size n : Nat} {r : Req} (h : r ∈ mkBlocks b e size n) :
    r.bStr = fmtYmd r.bMin ∧ r.eStr = fmtYmd r.eMin := by
  simp only [mkBlocks, List.mem_map, List.mem_range] at h
  obtain ⟨i, -, rfl⟩ := h
  exact ⟨rfl, rfl⟩

/-- C3: with validly parsed begin and end dates, a span of at most the
block size (31 days, or 365 for hourly_height and high_low) yields
exactly one request over the full range; a larger span yields exactly
`floor(span / blockSize) + 1` requests whose blocks start sequentially
at the begin instant in steps of one block size, every block end
clamped to never exceed the end instant. -/
theorem C3_request_plan (product bstr estr : String) (b e : Nat) :
    (((e : Int) - (b : Int)).fdiv 1440 ≤ (blockSizeDays product : Int) →
      (requests product bstr estr b e).map (fun r => (r.bMin, r.eMin)) = [(b, e)]) ∧
    ((blockSizeDays product : Int) < ((e : Int) - (b : Int)).fdiv 1440 →
      (requests product bstr estr b e).length =
        (((e : Int) - (b : Int)).fdiv 1440).toNat / blockSizeDays product + 1 ∧
      ∀ i, (h : i < (requests product bstr estr b e).length) →
        ((requests product bstr estr b e).get ⟨i, h⟩).bMin =
          b + i * (blockSizeDays product * 1440) ∧
        ((requests product bstr estr b e).get ⟨i, h⟩).eMin =
          min (b + (i + 1) * (blockSizeDays product * 1440)) e ∧
        ((requests product bstr estr b e).get ⟨i, h⟩).eMin ≤ e) := by
  by_cases hex : product = "hourly_height" ∨ product = "high_low"
  · have hbs : blockSizeDays product = 365 := by simp [blockSizeDays, hex]
    rw [hbs]
    constructor
    · intro hle
      by_cases h31 : ((e : Int) - (b : Int)).fdiv 1440 ≤ 31
      · unfold requests
        rw [if_pos h31]
        rfl
      · have h365 : ((e : Int) - (b : Int)).fdiv 1440 ≤ 365 := by exact_mod_cast hle
        unfold requests
        rw [if_neg h31, if_pos ⟨h365, hex⟩]
        rfl
    · intro hgt
      have h31 : ¬ ((e : Int) - (b : Int)).fdiv 1440 ≤ 31 := by omega
      have hand : ¬ (((e : Int) - (b : Int)).fdiv 1440 ≤ 365 ∧
          (product = "hourly_height" ∨ product = "high_low")) := by
        rintro ⟨hd, -⟩; omega
      unfold requests
      rw [if_neg h31, if_neg hand, if_pos hex]
      exact ⟨mkBlocks_length _ _ _ _, fun i h => mkBlocks_get_spec _ _ _ _ i h⟩
  · have hbs : blockSizeDays product = 31 := by simp [blockSizeDays, hex]
    rw [hbs]
    constructor
    · intro hle
      have h31 : ((e : Int) - (b : Int)).fdiv 1440 ≤ 31 := by exact_mod_cast hle
      unfold requests
      rw [if_pos h31]
      rfl
    · intro hgt
      have h31 : ¬ ((e : Int) - (b : Int)).fdiv 1440 ≤ 31 := by omega
      have hand : ¬ (((e : Int) - (b : Int)).fdiv 1440 ≤ 365 ∧
          (product = "hourly_height" ∨ product = "high_low")) := by
        rintro ⟨-, hx⟩; exact hex hx
      unfold requests
      rw [if_neg h31, if_neg hand, if_neg hex]
      exact ⟨mkBlocks_length _ _ _ _, fun i h => mkBlocks_get_spec _ _ _ _ i h⟩

theorem C3_request_plan_witness :
    (requests "water_level" "20150101" "20150331" (dtToMin ⟨2015, 1, 1, 0, 0⟩)
      (dtToMin ⟨2015, 3, 31, 0, 0⟩)).length = 3 ∧
    (requests "water_level" "20150101" "20150110" (dtToMin ⟨2015, 1, 1, 0, 0⟩)
      (dtToMin ⟨2015, 1, 10, 0, 0⟩)).map (fun r => (r.bMin, r.eMin)) =
      [(dtToMin ⟨2015, 1, 1, 0, 0⟩, dtToMin ⟨2015, 1, 10, 0, 0⟩)] := by
  constructor
  · have h := ((C3_request_plan "water_level" "20150101" "20150331"
      (dtToMin ⟨2015, 1, 1, 0, 0⟩) (dtToMin ⟨2015, 3, 31, 0, 0⟩)).2 (by decide)).1
    exact h.trans (by decide)
  · exact (C3_request_plan "water_level" "20150101" "20150110"
      (dtToMin ⟨2015, 1, 1, 0, 0⟩) (dtToMin ⟨2015, 1, 10, 0, 0⟩)).1 (by decide)

/-- C9 (amended): every multi-block fetch formats each block's begin
and end as the date-only `YYYYMMDD` rendering of the block instants,
discarding hour and minute; a single-block query on the 31-day path
formats its request as `YYYYMMDD HH:MM` of the parsed instants,
preserving hour and minute; a single-block query on the
hourly_height/high_low path (span over 31 and at most 365 whole days)
passes the caller's original begin and end strings through
unchanged. -/
theorem C9_block_date_formats (product bstr estr : String) (b e : Nat) :
    (1 < (requests product bstr estr b e).length →
      ∀ r ∈ requests product bstr estr b e, r.bStr = fmtYmd r.bMin ∧ r.eStr = fmtYmd r.eMin) ∧
    (((e : Int) - (b : Int)).fdiv 1440 ≤ 31 →
      (requests product bstr estr b e).map (fun r => (r.bStr, r.eStr)) =
        [(fmtYmdHM b, fmtYmdHM e)]) ∧
    (¬ ((e : Int) - (b : Int)).fdiv 1440 ≤ 31 →
      ((e : Int) - (b : Int)).fdiv 1440 ≤ 365 →
      (product = "hourly_height" ∨ product = "high_low") →
      (requests product bstr estr b e).map (fun r => (r.bStr, r.eStr)) = [(bstr, estr)]) := by
  refine ⟨?_, ?_, ?_⟩
  · intro hlen r hr
    by_cases h31 : ((e : Int) - (b : Int)).fdiv 1440 ≤ 31
    · unfold requests at hlen
      rw [if_pos h31] at hlen
      exact absurd hlen (by simp)
    · by_cases hand : ((e : Int) - (b : Int)).fdiv 1440 ≤ 365 ∧
        (product = "hourly_height" ∨ product = "high_low")
      · unfold requests at hlen
        rw [if_neg h31, if_pos hand] at hlen
        exact absurd hlen (by simp)
      · by_cases hex : product = "hourly_height" ∨ product = "high_low"
        · unfold requests at hr
          rw [if_neg h31, if_neg hand, if_pos hex] at hr
          exact mem_mkBlocks_fmt hr
        · unfold requests at hr
          rw [if_neg h31, if_neg hand, if_neg hex] at hr
          exact mem_mkBlocks_fmt hr
  · intro h31
    unfold requests
    rw [if_pos h31]
    rfl
  · intro h31 h365 hex
    unfold requests
    rw [if_neg h31, if_pos ⟨h365, hex⟩]
    rfl

theorem C9_block_date_formats_witness :
    (requests "water_level" "20150101" "20150331" (dtToMin ⟨2015, 1, 1, 0, 0⟩)
        (dtToMin ⟨2015, 3, 31, 0, 0⟩)).map (fun r => (r.bStr, r.eStr)) =
      (requests "water_level" "20150101" "20150331" (dtToMin ⟨2015, 1, 1, 0, 0⟩)
        (dtToMin ⟨2015, 3, 31, 0, 0⟩)).map (fun r => (fmtYmd r.bMin, fmtYmd r.eMin)) := by
  have h := (C9_block_date_formats "water_level" "20150101" "20150331"
    (dtToMin ⟨2015, 1, 1, 0, 0⟩) (dtToMin ⟨2015, 3, 31, 0, 0⟩)).1 (by decide)
  exact List.map_congr_left fun r hr => by rw [(h r hr).1, (h r hr).2]

lemma parse_eq_or (s : String) :
    _parse_known_date_formats s =
      ((strptime .ymd s).or ((strptime .ymdHM s).or ((strptime .mdy s).or (strptime .mdyHM s)))) := by
  unfold _parse_known_date_formats
  cases strptime .ymd s <;> cases strptime .ymdHM s <;> cases strptime .mdy s <;>
    cases strptime .mdyHM s <;> rfl

/-- C8: `_parse_known_date_formats` returns the value of the first
matching format among `YYYYMMDD`, `YYYYMMDD HH:MM`, `MM/DD/YYYY`,
`MM/DD/YYYY HH:MM`, tried in this fixed order, and fails (the modelled
`ValueError`) exactly when no format matches; `get_data` surfaces that
failure as an invalid-date error for whichever of the two date strings
is unparseable, independent of the response oracle, hence before any
request is issued. -/
theorem C8_first_matching_format (s : String) :
    (_parse_known_date_formats s = none ↔
      strptime .ymd s = none ∧ strptime .ymdHM s = none ∧
      strptime .mdy s = none ∧ strptime .mdyHM s = none) ∧
    (∀ d, strptime .ymd s = some d → _parse_known_date_formats s = some d) ∧
    (strptime .ymd s = none → ∀ d, strptime .ymdHM s = some d →
      _parse_known_date_formats s = some d) ∧
    (strptime .ymd s = none → strptime .ymdHM s = none → ∀ d, strptime .mdy s = some d →
      _parse_known_date_formats s = some d) ∧
    (strptime .ymd s = none → strptime .ymdHM s = none → strptime .mdy s = none →
      ∀ d, strptime .mdyHM s = some d → _parse_known_date_formats s = some d) ∧
    (∀ stationId estr product datum binNum interval units tz
      (oracle : Nat → ApiResp), _parse_known_date_formats s = none →
      get_data stationId s estr product datum binNum interval units tz oracle =
        .error (.invalidDate s)) ∧
    (∀ stationId bstr product datum binNum interval units tz
      (oracle : Nat → ApiResp) (bdt : PyDateTime),
      _parse_known_date_formats bstr = some bdt →
      _parse_known_date_formats s = none →
      get_data stationId bstr s product datum binNum interval units tz oracle =
        .error (.invalidDate s)) := by
  refine ⟨?_, ?_, ?_, ?_, ?_, ?_, ?_⟩
  · rw [parse_eq_or]
    cases strptime .ymd s <;> cases strptime .ymdHM s <;> cases strptime .mdy s <;>
      cases strptime .mdyHM s <;> simp [Option.or]
  · intro d h
    rw [parse_eq_or, h]
    rfl
  · intro h1 d h
    rw [parse_eq_or, h1, h]
    rfl
  · intro h1 h2 d h
    rw [parse_eq_or, h1, h2, h]
    rfl
  · intro h1 h2 h3 d h
    rw [parse_eq_or, h1, h2, h3, h]
    rfl
  · intro stationId estr product datum binNum interval units tz oracle h
    unfold get_data
    rw [h]
  · intro stationId bstr product datum binNum interval units tz oracle bdt hb h
    unfold get_data
    rw [hb]
    dsimp only
    rw [h]

theorem C8_first_matching_format_witness :
    _parse_known_date_formats "1/2/2015" = some ⟨2015, 1, 2, 0, 0⟩ ∧
    _parse_known_date_formats "2015-01-01" = none ∧
    get_data "9447130" "20150101" "2015-01-01" "water_level" (some "MLLW") none none
      "metric" "gmt" oracleSameRow = .error (.invalidDate "2015-01-01") := by
  refine ⟨?_, ?_, ?_⟩
  · exact (C8_first_matching_format "1/2/2015").2.2.2.1 (by decide) (by decide)
      ⟨2015, 1, 2, 0, 0⟩ (by decide)
  · exact (C8_first_matching_format "2015-01-01").1.mpr
      ⟨by decide, by decide, by decide, by decide⟩
  · exact (C8_first_matching_format "2015-01-01").2.2.2.2.2.2 "9447130" "20150101"
      "water_level" (some "MLLW") none none "metric" "gmt" oracleSameRow
      ⟨2015, 1, 1, 0, 0⟩ (by decide) (by decide)

lemma normPair_swap (a b : ℚ) : normPair [a, b] = normPair [b, a] := by
  rcases lt_trichotomy a b with h | rfl | h
  · simp only [normPair]
    rw [if_neg (by exact not_lt.mpr h.le), if_pos (by exact h)]
  · rfl
  · simp only [normPair]
    rw [if_pos (by exact h), if_neg (by exact not_lt.mpr h.le)]

lemma normPair_pair (a b : ℚ) : normPair [a, b] = [min a b, max a b] := by
  simp only [normPair]
  split
  · next h =>
    rw [min_eq_right h.le, max_eq_left h.le]
  · next h =>
    rw [min_eq_left (not_lt.mp h), max_eq_right (not_lt.mp h)]

lemma bboxPred_boundary (a b c d : ℚ) (s : BboxStation)
    (hs : s.lat = a ∨ s.lat = b ∨ s.lng = c ∨ s.lng = d) :
    bboxPred (min a b) (max a b) (min c d) (max c d) s = false := by
  unfold bboxPred
  rcases hs with h | h | h | h
  · by_cases hlat : min a b < s.lat ∧ s.lat < max a b
    · exfalso
      rcases hlat with ⟨h1, h2⟩
      rw [h] at h1 h2
      rcases min_lt_iff.mp h1 with h1a | h1b
      · exact lt_irrefl a h1a
      · rcases lt_max_iff.mp h2 with h2a | h2b
        · exact lt_irrefl a h2a
        · exact lt_asymm h1b h2b
    · rcases not_and_or.mp hlat with h1 | h2
      · simp [h1]
      · simp [h2]
  · by_cases hlat : min a b < s.lat ∧ s.lat < max a b
    · exfalso
      rcases hlat with ⟨h1, h2⟩
      rw [h] at h1 h2
      rcases min_lt_iff.mp h1 with h1a | h1b
      · rcases lt_max_iff.mp h2 with h2a | h2b
        · exact lt_asymm h1a h2a
        · exact lt_irrefl b h2b
      · exact lt_irrefl b h1b
    · rcases not_and_or.mp hlat with h1 | h2
      · simp [h1]
      · simp [h2]
  · by_cases hlon : min c d < s.lng ∧ s.lng < max c d
    · exfalso
      rcases hlon with ⟨h1, h2⟩
      rw [h] at h1 h2
      rcases min_lt_iff.mp h1 with h1a | h1b
      · exact lt_irrefl c h1a
      · rcases lt_max_iff.mp h2 with h2a | h2b
        · exact lt_irrefl c h2a
        · exact lt_asymm h1b h2b
    · rcases not_and_or.mp hlon with h1 | h2
      · simp [h1]
      · simp [h2]
  · by_cases hlon : min c d < s.lng ∧ s.lng < max c d
    · exfalso
      rcases hlon with ⟨h1, h2⟩
      rw [h] at h1 h2
      rcases min_lt_iff.mp h1 with h1a | h1b
      · rcases lt_max_iff.mp h2 with h2a | h2b
        · exact lt_asymm h1a h2a
        · exact lt_irrefl d h2b
      · exact lt_irrefl d h1b
    · rcases not_and_or.mp hlon with h1 | h2
      · simp [h1]
      · simp [h2]

/-- C10: `get_stations_from_bbox` returns the same station-ID list for
ascending and descending coordinate pairs (the in-place swap
normalizes them), a station lying exactly on a latitude or longitude
bound is never selected (the comparisons are strict), and a coordinate
list whose length is not 2 raises the ValueError. -/
theorem C10_bbox_order_and_strictness (a b c d : ℚ) (stations : List BboxStation) :
    get_stations_from_bbox [a, b] [c, d] stations =
      get_stations_from_bbox [b, a] [c, d] stations ∧
    get_stations_from_bbox [a, b] [c, d] stations =
      get_stations_from_bbox [a, b] [d, c] stations ∧
    (∀ s ∈ stations, s.lat = a ∨ s.lat = b ∨ s.lng = c ∨ s.lng = d →
      s ∉ bboxSelected [a, b] [c, d] stations) ∧
    (∀ latC lonC : List ℚ, latC.length ≠ 2 ∨ lonC.length ≠ 2 →
      get_stations_from_bbox latC lonC stations =
        .error "lat_coords and lon_coords must be of length 2.") := by
  refine ⟨?_, ?_, ?_, ?_⟩
  · unfold get_stations_from_bbox bboxSelected
    rw [normPair_swap a b]
    rfl
  · unfold get_stations_from_bbox bboxSelected
    rw [normPair_swap c d]
    rfl
  · intro s hs hb hmem
    unfold bboxSelected at hmem
    rw [List.mem_filter] at hmem
    rw [normPair_pair a b, normPair_pair c d] at hmem
    have hpred : bboxPred (min a b) (max a b) (min c d) (max c d) s = true := hmem.2
    rw [bboxPred_boundary a b c d s hb] at hpred
    exact Bool.false_ne_true hpred
  · intro latC lonC h
    unfold get_stations_from_bbox
    rw [if_pos h]

theorem C10_bbox_order_and_strictness_witness :
    (⟨"A", 1, 6⟩ : BboxStation) ∉ bboxSelected [1, 3] [5, 7] [⟨"A", 1, 6⟩, ⟨"B", 2, 6⟩] ∧
    get_stations_from_bbox [1, 3, 9] [5, 7] [⟨"A", 1, 6⟩, ⟨"B", 2, 6⟩] =
      .error "lat_coords and lon_coords must be of length 2." := by
  constructor
  · exact (C10_bbox_order_and_strictness 1 3 5 7 [⟨"A", 1, 6⟩, ⟨"B", 2, 6⟩]).2.2.1
      ⟨"A", 1, 6⟩ (by simp) (Or.inl rfl)
  · exact (C10_bbox_order_and_strictness 1 3 5 7 [⟨"A", 1, 6⟩, ⟨"B", 2, 6⟩]).2.2.2
      [1, 3, 9] [5, 7] (Or.inl (by simp))

lemma optRows_ne_nil {α : Type} (l : List α) : optRows l ≠ [] := by
  cases l <;> simp [optRows]

lemma mem_optRows_of_ne_nil {α : Type} {l : List α} (hne : l ≠ []) {o : Option α}
    (h : o ∈ optRows l) : ∃ x, o = some x ∧ x ∈ l := by
  cases l with
  | nil => exact absurd rfl hne
  | cons a as =>
    simp only [optRows, List.mem_map] at h
    rcases h with ⟨x, hx, rfl⟩
    exact ⟨x, rfl, hx⟩

lemma mem_optRows_some {α : Type} {l : List α} {x : α} (h : some x ∈ optRows l) : x ∈ l := by
  cases l with
  | nil => simp [optRows] at h
  | cons a as =>
    simp only [optRows, List.mem_map] at h
    rcases h with ⟨y, hy, hyx⟩
    rwa [← Option.some.inj hyx]

lemma mem_map_fst_iff {α : Type} {l : List (String × α)} {d : String} :
    d ∈ l.map Prod.fst ↔ ∃ x, (d, x) ∈ l := by
  constructor
  · intro h
    rcases List.mem_map.mp h with ⟨⟨d1, x⟩, hp, h1⟩
    cases h1
    exact ⟨x, hp⟩
  · rintro ⟨x, hx⟩
    exact List.mem_map.mpr ⟨(d, x), hx, rfl⟩

lemma mem_outerJoin {α β : Type} {L : List (String × α)} {R : List (String × β)}
    {d : String} {lr : Option α × Option β} :
    (d, lr) ∈ outerJoin L R ↔
      d ∈ ((L.map Prod.fst) ++ (R.map Prod.fst)).dedup ∧
      lr.1 ∈ optRows ((L.filter (fun p => p.1 == d)).map Prod.snd) ∧
      lr.2 ∈ optRows ((R.filter (fun p => p.1 == d)).map Prod.snd) := by
  unfold outerJoin
  constructor
  · intro h
    rcases List.mem_flatMap.mp h with ⟨d1, hd1, hin⟩
    rcases List.mem_flatMap.mp hin with ⟨l1, hl1, hin2⟩
    rcases List.mem_map.mp hin2 with ⟨r1, hr1, heq⟩
    have hd : d1 = d := congrArg Prod.fst heq
    have hlr : (l1, r1) = lr := congrArg Prod.snd heq
    subst hd
    rw [← hlr]
    exact ⟨hd1, hl1, hr1⟩
  · rintro ⟨hd, hl, hr⟩
    refine List.mem_flatMap.mpr ⟨d, hd, ?_⟩
    refine List.mem_flatMap.mpr ⟨lr.1, hl, ?_⟩
    exact List.mem_map.mpr ⟨lr.2, hr, rfl⟩

lemma outerJoin_origin {α β : Type} {L : List (String × α)} {R : List (String × β)}
    {d : String} {lr : Option α × Option β} (h : (d, lr) ∈ outerJoin L R) :
    d ∈ L.map Prod.fst ∨ d ∈ R.map Prod.fst := by
  have hd := (mem_outerJoin.mp h).1
  rw [List.mem_dedup] at hd
  exact List.mem_append.mp hd

lemma outerJoin_left_sound {α β : Type} {L : List (String × α)} {R : List (String × β)}
    {d : String} {lr : Option α × Option β} {x : α} (h : (d, lr) ∈ outerJoin L R)
    (hx : lr.1 = some x) : (d, x) ∈ L := by
  have hl := (mem_outerJoin.mp h).2.1
  rw [hx] at hl
  have hx2 := mem_optRows_some hl
  rcases List.mem_map.mp hx2 with ⟨⟨pd, px⟩, hp, hps⟩
  rcases List.mem_filter.mp hp with ⟨hpL, hpd⟩
  have h1 : pd = d := by simpa using hpd
  have h2 : px = x := hps
  rw [← h1, ← h2]
  exact hpL

lemma outerJoin_right_sound {α β : Type} {L : List (String × α)} {R : List (String × β)}
    {d : String} {lr : Option α × Option β} {x : β} (h : (d, lr) ∈ outerJoin L R)
    (hx : lr.2 = some x) : (d, x) ∈ R := by
  have hr := (mem_outerJoin.mp h).2.2
  rw [hx] at hr
  have hx2 := mem_optRows_some hr
  rcases List.mem_map.mp hx2 with ⟨⟨pd, px⟩, hp, hps⟩
  rcases List.mem_filter.mp hp with ⟨hpR, hpd⟩
  have h1 : pd = d := by simpa using hpd
  have h2 : px = x := hps
  rw [← h1, ← h2]
  exact hpR

lemma outerJoin_left_some {α β : Type} {L : List (String × α)} {R : List (String × β)}
    {d : String} {lr : Option α × Option β} {x0 : α} (h : (d, lr) ∈ outerJoin L R)
    (hx : (d, x0) ∈ L) : ∃ x, lr.1 = some x := by
  have hl := (mem_outerJoin.mp h).2.1
  have hne : (L.filter (fun p => p.1 == d)).map Prod.snd ≠ [] := by
    intro hc
    have hm : x0 ∈ (L.filter (fun p => p.1 == d)).map Prod.snd :=
      List.mem_map.mpr ⟨(d, x0), List.mem_filter.mpr ⟨hx, by simp⟩, rfl⟩
    rw [hc] at hm
    exact List.not_mem_nil _ hm
  rcases mem_optRows_of_ne_nil hne hl with ⟨x, hxeq, -⟩
  exact ⟨x, hxeq⟩

lemma outerJoin_right_some {α β : Type} {L : List (String × α)} {R : List (String × β)}
    {d : String} {lr : Option α × Option β} {x0 : β} (h : (d, lr) ∈ outerJoin L R)
    (hx : (d, x0) ∈ R) : ∃ x, lr.2 = some x := by
  have hr := (mem_outerJoin.mp h).2.2
  have hne : (R.filter (fun p => p.1 == d)).map Prod.snd ≠ [] := by
    intro hc
    have hm : x0 ∈ (R.filter (fun p => p.1 == d)).map Prod.snd :=
      List.mem_map.mpr ⟨(d, x0), List.mem_filter.mpr ⟨hx, by simp⟩, rfl⟩
    rw [hc] at hm
    exact List.not_mem_nil _ hm
  rcases mem_optRows_of_ne_nil hne hr with ⟨x, hxeq, -⟩
  exact ⟨x, hxeq⟩

lemma outerJoin_exists_left {α β : Type} {L : List (String × α)} {R : List (String × β)}
    {d : String} {x : α} (h : (d, x) ∈ L) : ∃ lr, (d, lr) ∈ outerJoin L R := by
  have hd : d ∈ ((L.map Prod.fst) ++ (R.map Prod.fst)).dedup :=
    List.mem_dedup.mpr (List.mem_append.mpr (Or.inl (List.mem_map.mpr ⟨(d, x), h, rfl⟩)))
  rcases List.exists_mem_of_ne_nil _ (optRows_ne_nil ((L.filter (fun p => p.1 == d)).map Prod.snd)) with ⟨l, hl⟩
  rcases List.exists_mem_of_ne_nil _ (optRows_ne_nil ((R.filter (fun p => p.1 == d)).map Prod.snd)) with ⟨r, hr⟩
  exact ⟨(l, r), mem_outerJoin.mpr ⟨hd, hl, hr⟩⟩

lemma outerJoin_exists_right {α β : Type} {L : List (String × α)} {R : List (String × β)}
    {d : String} {x : β} (h : (d, x) ∈ R) : ∃ lr, (d, lr) ∈ outerJoin L R := by
  have hd : d ∈ ((L.map Prod.fst) ++ (R.map Prod.fst)).dedup :=
    List.mem_dedup.mpr (List.mem_append.mpr (Or.inr (List.mem_map.mpr ⟨(d, x), h, rfl⟩)))
  rcases List.exists_mem_of_ne_nil _ (optRows_ne_nil ((L.filter (fun p => p.1 == d)).map Prod.snd)) with ⟨l, hl⟩
  rcases List.exists_mem_of_ne_nil _ (optRows_ne_nil ((R.filter (fun p => p.1 == d)).map Prod.snd)) with ⟨r, hr⟩
  exact ⟨(l, r), mem_outerJoin.mpr ⟨hd, hl, hr⟩⟩

lemma maxS_or (a b : String) : maxS a b = a ∨ maxS a b = b := by
  unfold maxS
  split
  · exact Or.inr rfl
  · exact Or.inl rfl

lemma foldl_maxS_mem (cs : List String) (c : String) : cs.foldl maxS c ∈ c :: cs := by
  induction cs generalizing c with
  | nil => simp
  | cons b bs ih =>
    rw [List.foldl_cons]
    rcases List.mem_cons.mp (ih (maxS c b)) with h1 | h1
    · rw [h1]
      rcases maxS_or c b with hm | hm <;> rw [hm] <;> simp
    · exact List.mem_cons_of_mem _ (List.mem_cons_of_mem _ h1)

lemma listMaxS_mem {l : List String} {m : String} (h : listMaxS l = some m) : m ∈ l := by
  cases l with
  | nil => simp [listMaxS] at h
  | cons c cs =>
    rw [listMaxS] at h
    rw [← Option.some.inj h]
    exact foldl_maxS_mem cs c

lemma mem_hl_vals {t : List (String × Row)} {vCol d : String} {r : Row} {s : String}
    (hm : (d, r) ∈ t) (hv : rowGetD r vCol = Cell.str s) : s ∈ hl_vals t vCol d := by
  unfold hl_vals
  refine List.mem_filterMap.mpr ⟨(d, r), hm, ?_⟩
  simp [hv]

lemma hl_vals_sound {t : List (String × Row)} {vCol d m : String}
    (h : m ∈ hl_vals t vCol d) : ∃ r, (d, r) ∈ t ∧ rowGetD r vCol = Cell.str m := by
  unfold hl_vals at h
  rcases List.mem_filterMap.mp h with ⟨⟨d1, r⟩, hmem, hf⟩
  by_cases hd : (d1 == d) = true
  · rw [if_pos hd] at hf
    have hdd : d1 = d := by simpa using hd
    subst hdd
    cases hc : rowGetD r vCol <;> rw [hc] at hf
    · exact ⟨r, hmem, by rw [hc, Option.some.inj hf]⟩
    · exact absurd hf (by simp)
    · exact absurd hf (by simp)
  · rw [if_neg hd] at hf
    exact absurd hf (by simp)

lemma hl_collapse_subset {vCol : String} {t : List (String × Row)} {p : String × Row}
    (h : p ∈ hl_collapse vCol t) : p ∈ t :=
  (List.mem_filter.mp h).1

lemma hl_collapse_val {vCol : String} {t : List (String × Row)} {d : String} {r : Row}
    (h : (d, r) ∈ hl_collapse vCol t) : ∃ s, rowGetD r vCol = Cell.str s := by
  have hc := (List.mem_filter.mp h).2
  cases hv : rowGetD r vCol
  · exact ⟨_, rfl⟩
  · rw [hv] at hc
    exact absurd hc (by cases listMaxS (hl_vals t vCol (d, r).1) <;> simp)
  · rw [hv] at hc
    exact absurd hc (by cases listMaxS (hl_vals t vCol (d, r).1) <;> simp)

lemma hl_collapse_exists {vCol : String} {t : List (String × Row)} {d : String} {r : Row}
    {s : String} (hm : (d, r) ∈ t) (hv : rowGetD r vCol = Cell.str s) :
    ∃ r', (d, r') ∈ hl_collapse vCol t := by
  have hs : s ∈ hl_vals t vCol d := mem_hl_vals hm hv
  have hne : hl_vals t vCol d ≠ [] := by
    intro hc
    rw [hc] at hs
    exact List.not_mem_nil _ hs
  obtain ⟨m, hmax⟩ : ∃ m, listMaxS (hl_vals t vCol d) = some m := by
    cases hl : hl_vals t vCol d with
    | nil => exact absurd hl hne
    | cons c cs => exact ⟨cs.foldl maxS c, rfl⟩
  rcases hl_vals_sound (listMaxS_mem hmax) with ⟨r', hr', hv'⟩
  refine ⟨r', List.mem_filter.mpr ⟨hr', ?_⟩⟩
  simp [hv', hmax]

/-- C7: every output row of the high_low outer joins is keyed by a
single calendar date coming from one of the four event sub-tables, and
a date with a low event value but no lower-low event appears in the
join with `L_water_level` present (a string value) and
`LL_water_level` missing. -/
theorem C7_high_low_outer_join (df : DF) (d : String) (r : Row) (s : String)
    (hr : (d, r) ∈ hl_sub df selL "L" false)
    (hv : rowGetD r "L_water_level" = Cell.str s)
    (hnoLL : d ∉ (hl_sub df selLL "LL" false).map Prod.fst) :
    (∀ p ∈ hl_join df, p.1 ∈ (hl_HH df).map Prod.fst ∨ p.1 ∈ (hl_H df).map Prod.fst ∨
      p.1 ∈ (hl_L df).map Prod.fst ∨ p.1 ∈ (hl_LL df).map Prod.fst) ∧
    (∃ j, (d, j) ∈ hl_join df) ∧
    (∀ j, (d, j) ∈ hl_join df →
      (∃ sL, rowGetD (hl_row d j) "L_water_level" = Cell.str sL) ∧
      rowGetD (hl_row d j) "LL_water_level" = Cell.nan) := by
  obtain ⟨rL, hrL⟩ := hl_collapse_exists hr hv
  have hrL' : (d, rL) ∈ hl_L df := hrL
  have hnoLL' : ∀ x, (d, x) ∉ hl_LL df := by
    intro x hx
    exact hnoLL (List.mem_map.mpr ⟨(d, x), hl_collapse_subset hx, rfl⟩)
  refine ⟨?_, ?_, ?_⟩
  · rintro ⟨d0, j⟩ hp
    unfold hl_join at hp
    rcases outerJoin_origin hp with h3 | h3
    · rcases mem_map_fst_iff.mp h3 with ⟨x2, hx2⟩
      rcases outerJoin_origin hx2 with h2 | h2
      · rcases mem_map_fst_iff.mp h2 with ⟨x1, hx1⟩
        rcases outerJoin_origin hx1 with h1 | h1
        · exact Or.inl h1
        · exact Or.inr (Or.inl h1)
      · exact Or.inr (Or.inr (Or.inl h2))
    · exact Or.inr (Or.inr (Or.inr h3))
  · obtain ⟨j2, hj2⟩ :=
      @outerJoin_exists_right _ _ (outerJoin (hl_HH df) (hl_H df)) _ _ _ hrL'
    obtain ⟨j3, hj3⟩ := @outerJoin_exists_left _ _ _ (hl_LL df) _ _ hj2
    exact ⟨j3, hj3⟩
  · rintro ⟨j1, j2⟩ hj
    unfold hl_join at hj
    have hj2none : j2 = none := by
      cases hx : j2 with
      | none => rfl
      | some x =>
        exact absurd (outerJoin_right_sound hj hx) (hnoLL' x)
    obtain ⟨x2, hx2⟩ :=
      @outerJoin_exists_right _ _ (outerJoin (hl_HH df) (hl_H df)) _ _ _ hrL'
    obtain ⟨a, ha⟩ := outerJoin_left_some hj hx2
    have haJ2 : (d, a) ∈ outerJoin (outerJoin (hl_HH df) (hl_H df)) (hl_L df) :=
      outerJoin_left_sound hj ha
    obtain ⟨aL, haL⟩ := outerJoin_right_some haJ2 hrL'
    have haLmem : (d, aL) ∈ hl_L df := outerJoin_right_sound haJ2 haL
    obtain ⟨s2, hs2⟩ :=
      @hl_collapse_val "L_water_level" (hl_sub df selL "L" false) d aL haLmem
    constructor
    · refine ⟨s2, ?_⟩
      have h1 : rowGetD (hl_row d (j1, j2)) "L_water_level" =
          getOpt (hlL (j1, j2)) "L_water_level" := rfl
      rw [h1]
      have h2 : hlL (j1, j2) = some aL := by
        unfold hlL
        rw [show (j1, j2).1 = some a from ha]
        exact haL
      rw [h2]
      exact hs2
    · have h1 : rowGetD (hl_row d (j1, j2)) "LL_water_level" =
          getOpt (hlLL (j1, j2)) "LL_water_level" := rfl
      rw [h1]
      have h2 : hlLL (j1, j2) = none := hj2none
      rw [h2]
      rfl

theorem C7_high_low_outer_join_witness :
    rowGetD (hl_row "2015-01-01" c7JoinRow) "LL_water_level" = Cell.nan ∧
    (∃ sL, rowGetD (hl_row "2015-01-01" c7JoinRow) "L_water_level" = Cell.str sL) := by
  have h := (C7_high_low_outer_join (hlTwoLows.map (renameRow hlRenames)) "2015-01-01"
    [("date_time_L", Cell.str "2015-01-01 04:00"), ("L_water_level", Cell.str "1.0")] "1.0"
    (by decide) (by decide) (by decide)).2.2 c7JoinRow (by decide)
  exact ⟨h.2, h.1⟩

end NoaaCoops
